import Mathlib

/-!
Shallow embedding of `htmlPy/base_gui.py` (class `BaseGUI` and class
`Browser`).  Python strings become `String`, the `_javascript_settings`
dict becomes an insertion-ordered association list, side effects on the
Qt widget become explicit state passing on a `GUIState` record together
with a trace of emitted `Event`s, and raising an exception becomes
returning `Except.error` with the Python exception class and message.
-/

set_option autoImplicit false
set_option maxRecDepth 8192

/-! ### Module-level script constants (base_gui.py lines 11-23) -/

def RIGHT_CLICK_SETTING_KEY : String := "RIGHT_CLICK"

def RIGHT_CLICK_ENABLE : String := "document.oncontextmenu = null;"

def RIGHT_CLICK_DISABLE : String :=
  "document.oncontextmenu = function(e) \x7b return false; \x7d;"

def RIGHT_CLICK_INPUTS_ONLY : String :=
  "document.oncontextmenu = function(e) \x7breturn e.target.nodeName == \x27INPUT\x27 || e.target.nodeName == \x27TEXTAREA\x27\x7d;"

def TEXT_SELECTION_SETTING_KEY : String := "TEXT_SELECTION"

def TEXT_SELECTION_ENABLE : String :=
  "document.onselectstart = null;document.body.style.webkitUserSelect = \x27\x27;document.body.style.cursor = \x27\x27;"

def TEXT_SELECTION_DISABLE : String :=
  "document.onselectstart = function(e) \x7b return false; \x7d; document.body.style.webkitUserSelect = \x27none\x27;document.body.style.cursor = \x27default\x27;"

/-- Modelled from the spec: the `htmlPy.settings` module is imported by
`base_gui.py` but is not under `src/`.  The spec (section 4.2 and the
docstrings at base_gui.py lines 208-210) describes `ENABLE`, `DISABLE`
and `INPUTS_ONLY` as distinct integer constants; their concrete values
are irrelevant to the code, only their distinctness matters. -/
def settings.ENABLE : Int := 0

/-- Modelled from the spec: second member of the `htmlPy.settings`
enumeration (module not under `src/`), distinct from the others. -/
def settings.DISABLE : Int := 1

/-- Modelled from the spec: third member of the `htmlPy.settings`
enumeration (module not under `src/`), distinct from the others. -/
def settings.INPUTS_ONLY : Int := 2

/-! ### Python exceptions and the dict model -/

/-- Python exceptions raised by `base_gui.py`: `RuntimeError` at line 80
and `ValueError` at lines 225 and 255, each carrying its message. -/
inductive PyError where
  | runtimeError (msg : String)
  | valueError (msg : String)
deriving DecidableEq, Repr

/-- Message of the `RuntimeError` raised at base_gui.py line 80. -/
def alreadyRunningError : String :=
  "Another htmlPy application is already running"

/-- Message of the `ValueError` raised at base_gui.py lines 225-228
(concatenation of the four string literals). -/
def rightClickSettingError : String :=
  "The argument should be either htmlPy.settings.ENABLE or htmlPy.settings.DISABLE or htmlPy.settings.INPUTS_ONLY"

/-- Message of the `ValueError` raised at base_gui.py lines 255-257. -/
def textSelectionSettingError : String :=
  "The argument should be either htmlPy.settings.ENABLE or htmlPy.settings.DISABLE"

/-- The `_javascript_settings` Python dict, embedded as an association
list in insertion order (Python dicts iterate in insertion order). -/
abbrev Registry := List (String × String)

/-- Assignment `d[k] = v` on a Python dict: overwriting an existing key
keeps its position, a new key is appended at the end. -/
def dictSet (d : Registry) (k v : String) : Registry :=
  match d with
  | [] => [(k, v)]
  | p :: rest => if p.1 = k then (k, v) :: rest else p :: dictSet rest k v

/-- Call `d.pop(k, None)` on a Python dict: the entry for `k`, if any,
is removed; absence of the key is not an error. -/
def dictPop (d : Registry) (k : String) : Registry :=
  match d with
  | [] => []
  | p :: rest => if p.1 = k then dictPop rest k else p :: dictPop rest k

/-- Lookup `d[k]` returning `none` when the key is absent. -/
def dictLookup (d : Registry) (k : String) : Option String :=
  match d with
  | [] => none
  | p :: rest => if p.1 = k then some p.2 else dictLookup rest k

/-- Call `d.values()` on a Python dict, in insertion order. -/
def dictValues (d : Registry) : List String := d.map Prod.snd

/-- Python `sep.join(l)` on a list of strings. -/
def pyJoin (sep : String) : List String → String
  | [] => ""
  | [v] => v
  | v :: rest => v ++ sep ++ pyJoin sep rest

/-! ### Side effects on the widget, recorded as events -/

/-- Observable calls `BaseGUI` makes into the Qt widget. -/
inductive Event where
  | evaluateJavascript (script : String)
  | resize (w h : Int)
  | move (x y : Int)
  | showNormal
  | showMaximized
  | setWindowTitle (t : String)
  | setAttribute (name : String) (value : Bool)
deriving DecidableEq, Repr

/-! ### The setting methods (base_gui.py lines 196-257)

`evaluate_javascript` (line 187) only forwards the string to the page,
so a call to it is recorded as an `Event.evaluateJavascript`.  The two
setting methods touch no state other than `self._javascript_settings`,
hence they are functions of the registry. -/

/-- Embeds `BaseGUI.right_click_setting` (base_gui.py lines 196-228):
dispatch on `value`, evaluate the corresponding script and update the
registry, or raise `ValueError` for an unrecognized value. -/
def right_click_setting (r : Registry) (value : Int) :
    Except PyError (Registry × List Event) :=
  if value = settings.ENABLE then
    .ok (dictPop r RIGHT_CLICK_SETTING_KEY,
         [Event.evaluateJavascript RIGHT_CLICK_ENABLE])
  else if value = settings.DISABLE then
    .ok (dictSet r RIGHT_CLICK_SETTING_KEY RIGHT_CLICK_DISABLE,
         [Event.evaluateJavascript RIGHT_CLICK_DISABLE])
  else if value = settings.INPUTS_ONLY then
    .ok (dictSet r RIGHT_CLICK_SETTING_KEY RIGHT_CLICK_INPUTS_ONLY,
         [Event.evaluateJavascript RIGHT_CLICK_INPUTS_ONLY])
  else
    .error (PyError.valueError rightClickSettingError)

/-- Embeds `BaseGUI.text_selection_setting` (base_gui.py lines
230-257). -/
def text_selection_setting (r : Registry) (value : Int) :
    Except PyError (Registry × List Event) :=
  if value = settings.ENABLE then
    .ok (dictPop r TEXT_SELECTION_SETTING_KEY,
         [Event.evaluateJavascript TEXT_SELECTION_ENABLE])
  else if value = settings.DISABLE then
    .ok (dictSet r TEXT_SELECTION_SETTING_KEY TEXT_SELECTION_DISABLE,
         [Event.evaluateJavascript TEXT_SELECTION_DISABLE])
  else
    .error (PyError.valueError textSelectionSettingError)

/-- Embeds `BaseGUI.__javascript_setting_call` (base_gui.py lines
137-146): join the registry values with ";" and evaluate once when the
joined string is nonempty. -/
def javascript_setting_call (r : Registry) : List Event :=
  let javascript_string := pyJoin ";" (dictValues r)
  if javascript_string.length > 0 then
    [Event.evaluateJavascript javascript_string]
  else
    []

/-! ### Widget and application state -/

/-- State of the `Browser` widget (a `QWebView` subclass, base_gui.py
lines 260-273) as far as `BaseGUI` observes or mutates it:  `title` is
the hosted page title returned by `self.title()`, `windowTitle` is the
native window chrome title, plus the maximized flag, the widget-side
geometry, and the three boolean `QWebSettings` attributes. -/
structure Widget where
  windowTitle : String
  title : String
  isMaximized : Bool
  geomW : Int
  geomH : Int
  geomX : Int
  geomY : Int
  localRemoteUrls : Bool
  pluginsEnabled : Bool
  developerExtras : Bool
deriving DecidableEq, Repr

/-- State of a `BaseGUI` instance: the widget, the
`_javascript_settings` registry, and the four geometry caches
`self._width`, `self._height`, `self._x`, `self._y` set at
base_gui.py lines 95-98. -/
structure GUIState where
  widget : Widget
  registry : Registry
  _width : Int
  _height : Int
  _x : Int
  _y : Int
deriving DecidableEq, Repr

/-- Return value of a Python call, used to embed the truthiness test of
the `and` short-circuit at base_gui.py line 116.  Void Qt slots such as
`showNormal`/`showMaximized` return `None`. -/
inductive PyVal where
  | none
  | int (n : Int)
deriving DecidableEq, Repr

/-- Python truthiness: `None` is falsy, an int is truthy iff nonzero. -/
def pyTruthy : PyVal → Bool
  | .none => false
  | .int n => n ≠ 0

/-- Call `self.window.resize(w, h)`. -/
def window_resize (st : GUIState) (w h : Int) : GUIState × List Event :=
  ({ st with widget := { st.widget with geomW := w, geomH := h } },
   [Event.resize w h])

/-- Call `self.window.move(x, y)`. -/
def window_move (st : GUIState) (x y : Int) : GUIState × List Event :=
  ({ st with widget := { st.widget with geomX := x, geomY := y } },
   [Event.move x y])

/-- Call `instance.window.showMaximized()`: a void Qt slot, returns
`None`. -/
def window_showMaximized (st : GUIState) : GUIState × List Event × PyVal :=
  ({ st with widget := { st.widget with isMaximized := true } },
   [Event.showMaximized], PyVal.none)

/-- Call `instance.window.showNormal()`: a void Qt slot, returns
`None`. -/
def window_showNormal (st : GUIState) : GUIState × List Event × PyVal :=
  ({ st with widget := { st.widget with isMaximized := false } },
   [Event.showNormal], PyVal.none)

/-- Getter lambda of the `maximized` live property (base_gui.py line
114): `instance.window.isMaximized()`.  The `descriptors.LiveProperty`
machinery itself is not under `src/`; per spec section 4.1 a property
read is a direct call of the stored read function. -/
def maximized_get (st : GUIState) : Bool := st.widget.isMaximized

/-- Embeds `BaseGUI.auto_resize` (base_gui.py lines 148-156): when the
window is not maximized, resize it to the cached dimensions and move it
to the cached location. -/
def auto_resize (st : GUIState) : GUIState × List Event :=
  if ¬ maximized_get st then
    let (st1, ev1) := window_resize st st._width st._height
    let (st2, ev2) := window_move st1 st._x st._y
    (st2, ev1 ++ ev2)
  else
    (st, [])

/-- Setter lambda of the `maximized` live property (base_gui.py lines
115-116): `instance.window.showMaximized() if value else
instance.window.showNormal() and instance.auto_resize()`.  Python
evaluates `A and B` by first evaluating `A` and only evaluating `B`
when `A` is truthy, which the `pyTruthy` test below embeds;
`showNormal()` returns `None`. -/
def maximized_set (st : GUIState) (value : Bool) : GUIState × List Event :=
  if value then
    let (st1, ev1, _) := window_showMaximized st
    (st1, ev1)
  else
    let (st1, ev1, r1) := window_showNormal st
    if pyTruthy r1 then
      let (st2, ev2) := auto_resize st1
      (st2, ev1 ++ ev2)
    else
      (st1, ev1)

/-- Setter lambda of the `title` live property (base_gui.py line 121):
`instance.window.setWindowTitle(value)`. -/
def title_set (st : GUIState) (value : String) : GUIState × List Event :=
  ({ st with widget := { st.widget with windowTitle := value } },
   [Event.setWindowTitle value])

/-- Setter lambda of the `plugins` live property (base_gui.py lines
127-128): set the `PluginsEnabled` attribute of the web settings. -/
def plugins_set (st : GUIState) (value : Bool) : GUIState × List Event :=
  ({ st with widget := { st.widget with pluginsEnabled := value } },
   [Event.setAttribute "PluginsEnabled" value])

/-- Setter lambda of the `developer_mode` live property (base_gui.py
lines 134-135): set the `DeveloperExtrasEnabled` attribute. -/
def developer_mode_set (st : GUIState) (value : Bool) : GUIState × List Event :=
  ({ st with widget := { st.widget with developerExtras := value } },
   [Event.setAttribute "DeveloperExtrasEnabled" value])

/-- Call at base_gui.py lines 89-90:
`self.window.settings().setAttribute(LocalContentCanAccessRemoteUrls, True)`. -/
def set_local_remote_urls (st : GUIState) (value : Bool) : GUIState × List Event :=
  ({ st with widget := { st.widget with localRemoteUrls := value } },
   [Event.setAttribute "LocalContentCanAccessRemoteUrls" value])

/-! ### The Browser widget (base_gui.py lines 260-273) -/

/-- Qt default state of a freshly constructed `QWebView`: empty titles,
not maximized, default geometry, attributes off. -/
def freshWidget : Widget :=
  { windowTitle := "", title := "", isMaximized := false,
    geomW := 0, geomH := 0, geomX := 0, geomY := 0,
    localRemoteUrls := false, pluginsEnabled := false,
    developerExtras := false }

/-- Embeds `Browser.__init__` (base_gui.py lines 261-264): construct the
web view and set the chrome title to the placeholder; the
`titleChanged` signal is connected to `adjustTitle`. -/
def Browser_init : Widget × List Event :=
  ({ freshWidget with windowTitle := "Loading..." },
   [Event.setWindowTitle "Loading..."])

/-- Embeds `Browser.adjustTitle` (base_gui.py lines 266-267):
`self.setWindowTitle(self.title())`. -/
def adjustTitle (st : GUIState) : GUIState × List Event :=
  ({ st with widget := { st.widget with windowTitle := st.widget.title } },
   [Event.setWindowTitle st.widget.title])

/-- Dispatch of the `titleChanged` notification: the widget title has
just changed to `newTitle` and the connected slot `adjustTitle`
(base_gui.py line 264) runs. -/
def titleChanged_dispatch (st : GUIState) (newTitle : String) :
    GUIState × List Event :=
  adjustTitle { st with widget := { st.widget with title := newTitle } }

/-! ### Constructor (base_gui.py lines 71-105) -/

/-- Arguments of `BaseGUI.__init__` (base_gui.py lines 72-75). -/
structure InitArgs where
  title : String
  width : Int
  height : Int
  x_pos : Int
  y_pos : Int
  maximized : Bool
  plugins : Bool
  developer_mode : Bool
  allow_overwrite : Bool
deriving DecidableEq, Repr

/-- Default argument values from base_gui.py lines 72-75. -/
def defaultArgs : InitArgs :=
  { title := "Application", width := 800, height := 600,
    x_pos := 10, y_pos := 10, maximized := false,
    plugins := false, developer_mode := false, allow_overwrite := false }

/-- What `self.app` ends up bound to: the pre-existing `QApplication`
instance, or a freshly created one. -/
inductive AppRef where
  | reused (handle : Nat)
  | fresh
deriving DecidableEq, Repr

/-- Embeds base_gui.py lines 78-84: `QApplication.instance()` is
`existing` (a handle when an application already exists); raise
`RuntimeError` when it exists and `allow_overwrite` is not passed,
reuse it when it exists and `allow_overwrite` is passed, otherwise
create a fresh `QApplication`. -/
def acquire_app (existing : Option Nat) (allow_overwrite : Bool) :
    Except PyError AppRef :=
  match existing with
  | some app =>
    if allow_overwrite then .ok (AppRef.reused app)
    else .error (PyError.runtimeError alreadyRunningError)
  | none => .ok AppRef.fresh

/-- Embeds `BaseGUI.__init__` (base_gui.py lines 71-105) end to end:
acquire the application singleton, construct the `Browser`, enable
`LocalContentCanAccessRemoteUrls`, create the empty registry, store the
geometry caches, set `title`, `plugins`, `developer_mode` and
`maximized` through their live-property setters, and call
`auto_resize`. -/
def BaseGUI_init (existing : Option Nat) (args : InitArgs) :
    Except PyError (AppRef × GUIState × List Event) :=
  Except.map
    (fun appRef =>
      let st0 : GUIState :=
        { widget := Browser_init.1, registry := [],
          _width := args.width, _height := args.height,
          _x := args.x_pos, _y := args.y_pos }
      let r1 := set_local_remote_urls st0 true
      let r2 := title_set r1.1 args.title
      let r3 := plugins_set r2.1 args.plugins
      let r4 := developer_mode_set r3.1 args.developer_mode
      let r5 := maximized_set r4.1 args.maximized
      let r6 := auto_resize r5.1
      (appRef, r6.1,
       Browser_init.2 ++ r1.2 ++ r2.2 ++ r3.2 ++ r4.2 ++ r5.2 ++ r6.2))
    (acquire_app existing args.allow_overwrite)

/-! ### Registry state machine -/

/-- A call of one of the two setting methods with an arbitrary
argument. -/
inductive SettingOp where
  | rightClick (value : Int)
  | textSelection (value : Int)
deriving DecidableEq, Repr

/-- Registry after a setting call: a raising call leaves the caller's
registry as it was. -/
def applyOp (r : Registry) (op : SettingOp) : Registry :=
  match op with
  | .rightClick v =>
    match right_click_setting r v with
    | .ok res => res.1
    | .error _ => r
  | .textSelection v =>
    match text_selection_setting r v with
    | .ok res => res.1
    | .error _ => r

/-- Registry after a sequence of setting calls. -/
def runOps (r : Registry) (ops : List SettingOp) : Registry :=
  ops.foldl applyOp r

/-- An entry the setting methods may store: the right-click key mapped
to one of its two overriding scripts, or the text-selection key mapped
to its overriding script. -/
def validEntry (p : String × String) : Prop :=
  (p.1 = RIGHT_CLICK_SETTING_KEY ∧
    (p.2 = RIGHT_CLICK_DISABLE ∨ p.2 = RIGHT_CLICK_INPUTS_ONLY)) ∨
  (p.1 = TEXT_SELECTION_SETTING_KEY ∧ p.2 = TEXT_SELECTION_DISABLE)

instance (p : String × String) : Decidable (validEntry p) := by
  unfold validEntry
  infer_instance

/-- Well-formedness of the registry: every stored entry is one the
setting methods can produce. -/
def registryWF (r : Registry) : Prop := ∀ p ∈ r, validEntry p

instance (r : Registry) : Decidable (registryWF r) := by
  unfold registryWF
  infer_instance

/-! ### Helper lemmas about the dict model -/

theorem dictLookup_dictSet (d : Registry) (k v : String) :
    dictLookup (dictSet d k v) k = some v := by
  induction d with
  | nil => simp [dictSet, dictLookup]
  | cons p rest ih =>
    by_cases h : p.1 = k <;> simp [dictSet, dictLookup, h, ih]

theorem dictLookup_dictPop (d : Registry) (k : String) :
    dictLookup (dictPop d k) k = none := by
  induction d with
  | nil => rfl
  | cons p rest ih =>
    by_cases h : p.1 = k <;> simp [dictPop, dictLookup, h, ih]

theorem mem_dictPop {q : String × String} {d : Registry} {k : String}
    (h : q ∈ dictPop d k) : q ∈ d := by
  induction d with
  | nil => simp [dictPop] at h
  | cons p rest ih =>
    by_cases hp : p.1 = k
    · simp only [dictPop, if_pos hp] at h
      exact List.mem_cons_of_mem p (ih h)
    · simp only [dictPop, if_neg hp, List.mem_cons] at h
      rcases h with h | h
      · exact h ▸ List.mem_cons_self p rest
      · exact List.mem_cons_of_mem p (ih h)

theorem mem_dictSet {q : String × String} {d : Registry} {k v : String}
    (h : q ∈ dictSet d k v) : q = (k, v) ∨ q ∈ d := by
  induction d with
  | nil => simpa [dictSet] using h
  | cons p rest ih =>
    by_cases hp : p.1 = k
    · simp only [dictSet, if_pos hp, List.mem_cons] at h
      rcases h with h | h
      · exact Or.inl h
      · exact Or.inr (List.mem_cons_of_mem p h)
    · simp only [dictSet, if_neg hp, List.mem_cons] at h
      rcases h with h | h
      · exact Or.inr (h ▸ List.mem_cons_self p rest)
      · rcases ih h with h | h
        · exact Or.inl h
        · exact Or.inr (List.mem_cons_of_mem p h)

theorem registryWF_dictPop {d : Registry} (k : String)
    (h : registryWF d) : registryWF (dictPop d k) :=
  fun q hq => h q (mem_dictPop hq)

theorem registryWF_dictSet {d : Registry} {k v : String}
    (hkv : validEntry (k, v)) (h : registryWF d) :
    registryWF (dictSet d k v) := by
  intro q hq
  rcases mem_dictSet hq with he | hm
  · rw [he]; exact hkv
  · exact h q hm

/-! ### Registry invariant preservation -/

theorem registryWF_applyOp (r : Registry) (op : SettingOp)
    (h : registryWF r) : registryWF (applyOp r op) := by
  cases op with
  | rightClick v =>
    by_cases h1 : v = settings.ENABLE
    · simpa [applyOp, right_click_setting, h1] using registryWF_dictPop _ h
    · by_cases h2 : v = settings.DISABLE
      · simpa [applyOp, right_click_setting, h1, h2] using
          registryWF_dictSet (by decide) h
      · by_cases h3 : v = settings.INPUTS_ONLY
        · simpa [applyOp, right_click_setting, h1, h2, h3] using
            registryWF_dictSet (by decide) h
        · simpa [applyOp, right_click_setting, h1, h2, h3] using h
  | textSelection v =>
    by_cases h1 : v = settings.ENABLE
    · simpa [applyOp, text_selection_setting, h1] using registryWF_dictPop _ h
    · by_cases h2 : v = settings.DISABLE
      · simpa [applyOp, text_selection_setting, h1, h2] using
          registryWF_dictSet (by decide) h
      · simpa [applyOp, text_selection_setting, h1, h2] using h

theorem registryWF_runOps (ops : List SettingOp) :
    ∀ r : Registry, registryWF r → registryWF (runOps r ops) := by
  induction ops with
  | nil => exact fun r h => h
  | cons op rest ih =>
    intro r h
    exact ih (applyOp r op) (registryWF_applyOp r op h)

/-! ### Helper lemmas about the replay join -/

theorem pyJoin_length_pos (sep v : String) (l : List String)
    (h : 0 < v.length) : 0 < (pyJoin sep (v :: l)).length := by
  cases l with
  | nil => simpa [pyJoin] using h
  | cons a rest =>
    simp only [pyJoin, String.length_append]
    omega

theorem validEntry_length_pos {p : String × String} (h : validEntry p) :
    0 < p.2.length := by
  rcases h with ⟨_, h2 | h2⟩ | ⟨_, h2⟩ <;> rw [h2] <;> decide

/-! ### Claim theorems -/

/-- C1.  For every (reachable, i.e. well-formed) registry state, the
load-finished replay callback joins all stored script strings with ";"
and evaluates the result in a single `evaluate_javascript` call; when
the registry is empty it makes no evaluation call at all. -/
theorem replay_joins_and_evaluates_once (r : Registry) (h : registryWF r) :
    (r = [] → javascript_setting_call r = []) ∧
    (r ≠ [] → javascript_setting_call r =
      [Event.evaluateJavascript (pyJoin ";" (dictValues r))]) := by
  constructor
  · intro he
    rw [he]
    rfl
  · intro hne
    match r, hne with
    | p :: rest, _ =>
      have hpos : 0 < (pyJoin ";" (dictValues (p :: rest))).length := by
        have hv : validEntry p := h p (List.mem_cons_self p rest)
        simpa [dictValues] using
          pyJoin_length_pos ";" p.2 (dictValues rest) (validEntry_length_pos hv)
      simp only [javascript_setting_call]
      rw [if_pos hpos]

theorem replay_joins_and_evaluates_once_witness :
    javascript_setting_call [] = [] ∧
    javascript_setting_call [(RIGHT_CLICK_SETTING_KEY, RIGHT_CLICK_DISABLE)] =
      [Event.evaluateJavascript RIGHT_CLICK_DISABLE] := by
  constructor
  · exact (replay_joins_and_evaluates_once [] (by decide)).1 rfl
  · have h := (replay_joins_and_evaluates_once
      [(RIGHT_CLICK_SETTING_KEY, RIGHT_CLICK_DISABLE)] (by decide)).2 (by decide)
    simpa [dictValues, pyJoin] using h

/-- C2.  Any value outside the recognized enumeration passed to
`right_click_setting` or to `text_selection_setting` raises a
`ValueError` whose message names the allowed values, leaves the registry
exactly as it was, and evaluates no script (the error result carries no
events). -/
theorem invalid_setting_value_raises (r : Registry) (v : Int) :
    (v ≠ settings.ENABLE → v ≠ settings.DISABLE → v ≠ settings.INPUTS_ONLY →
      right_click_setting r v =
        .error (PyError.valueError rightClickSettingError) ∧
      applyOp r (SettingOp.rightClick v) = r) ∧
    (v ≠ settings.ENABLE → v ≠ settings.DISABLE →
      text_selection_setting r v =
        .error (PyError.valueError textSelectionSettingError) ∧
      applyOp r (SettingOp.textSelection v) = r) ∧
    rightClickSettingError =
      "The argument should be either " ++ "htmlPy.settings.ENABLE or " ++
      "htmlPy.settings.DISABLE or " ++ "htmlPy.settings.INPUTS_ONLY" ∧
    textSelectionSettingError =
      "The argument should be either " ++ "htmlPy.settings.ENABLE or " ++
      "htmlPy.settings.DISABLE" := by
  refine ⟨?_, ?_, by decide, by decide⟩
  · intro h1 h2 h3
    constructor
    · simp [right_click_setting, h1, h2, h3]
    · simp [applyOp, right_click_setting, h1, h2, h3]
  · intro h1 h2
    constructor
    · simp [text_selection_setting, h1, h2]
    · simp [applyOp, text_selection_setting, h1, h2]

theorem invalid_setting_value_raises_witness :
    (right_click_setting [(RIGHT_CLICK_SETTING_KEY, RIGHT_CLICK_DISABLE)] 99 =
       .error (PyError.valueError rightClickSettingError) ∧
     applyOp [(RIGHT_CLICK_SETTING_KEY, RIGHT_CLICK_DISABLE)]
       (SettingOp.rightClick 99) =
       [(RIGHT_CLICK_SETTING_KEY, RIGHT_CLICK_DISABLE)]) ∧
    (text_selection_setting [] settings.INPUTS_ONLY =
       .error (PyError.valueError textSelectionSettingError) ∧
     applyOp [] (SettingOp.textSelection settings.INPUTS_ONLY) = []) :=
  ⟨(invalid_setting_value_raises [(RIGHT_CLICK_SETTING_KEY,
      RIGHT_CLICK_DISABLE)] 99).1 (by decide) (by decide) (by decide),
   (invalid_setting_value_raises [] settings.INPUTS_ONLY).2.1
     (by decide) (by decide)⟩

/-- C3.  Each valid non-default setting value evaluates exactly its
documented script snippet immediately and stores that same snippet in
the registry under the setting's key, replacing any prior entry for
that key. -/
theorem nondefault_setting_stores_exact_snippet (r : Registry) :
    (right_click_setting r settings.DISABLE =
      .ok (dictSet r RIGHT_CLICK_SETTING_KEY RIGHT_CLICK_DISABLE,
           [Event.evaluateJavascript RIGHT_CLICK_DISABLE]) ∧
     dictLookup (dictSet r RIGHT_CLICK_SETTING_KEY RIGHT_CLICK_DISABLE)
       RIGHT_CLICK_SETTING_KEY = some RIGHT_CLICK_DISABLE) ∧
    (right_click_setting r settings.INPUTS_ONLY =
      .ok (dictSet r RIGHT_CLICK_SETTING_KEY RIGHT_CLICK_INPUTS_ONLY,
           [Event.evaluateJavascript RIGHT_CLICK_INPUTS_ONLY]) ∧
     dictLookup (dictSet r RIGHT_CLICK_SETTING_KEY RIGHT_CLICK_INPUTS_ONLY)
       RIGHT_CLICK_SETTING_KEY = some RIGHT_CLICK_INPUTS_ONLY) ∧
    (text_selection_setting r settings.DISABLE =
      .ok (dictSet r TEXT_SELECTION_SETTING_KEY TEXT_SELECTION_DISABLE,
           [Event.evaluateJavascript TEXT_SELECTION_DISABLE]) ∧
     dictLookup (dictSet r TEXT_SELECTION_SETTING_KEY TEXT_SELECTION_DISABLE)
       TEXT_SELECTION_SETTING_KEY = some TEXT_SELECTION_DISABLE) := by
  refine ⟨⟨?_, dictLookup_dictSet r _ _⟩, ⟨?_, dictLookup_dictSet r _ _⟩,
    ⟨?_, dictLookup_dictSet r _ _⟩⟩
  · simp [right_click_setting, settings.ENABLE, settings.DISABLE]
  · simp [right_click_setting, settings.ENABLE, settings.DISABLE,
      settings.INPUTS_ONLY]
  · simp [text_selection_setting, settings.ENABLE, settings.DISABLE]

/-- C5.  The `ENABLE` calls are idempotent on the registry: one call
leaves no entry under the setting's key, and a second consecutive call
succeeds (returns `ok`, does not raise) and again leaves no entry. -/
theorem enable_setting_idempotent (r : Registry) :
    (right_click_setting r settings.ENABLE =
      .ok (dictPop r RIGHT_CLICK_SETTING_KEY,
           [Event.evaluateJavascript RIGHT_CLICK_ENABLE]) ∧
     dictLookup (dictPop r RIGHT_CLICK_SETTING_KEY)
       RIGHT_CLICK_SETTING_KEY = none ∧
     right_click_setting (dictPop r RIGHT_CLICK_SETTING_KEY)
       settings.ENABLE =
      .ok (dictPop (dictPop r RIGHT_CLICK_SETTING_KEY)
             RIGHT_CLICK_SETTING_KEY,
           [Event.evaluateJavascript RIGHT_CLICK_ENABLE]) ∧
     dictLookup (dictPop (dictPop r RIGHT_CLICK_SETTING_KEY)
       RIGHT_CLICK_SETTING_KEY) RIGHT_CLICK_SETTING_KEY = none) ∧
    (text_selection_setting r settings.ENABLE =
      .ok (dictPop r TEXT_SELECTION_SETTING_KEY,
           [Event.evaluateJavascript TEXT_SELECTION_ENABLE]) ∧
     dictLookup (dictPop r TEXT_SELECTION_SETTING_KEY)
       TEXT_SELECTION_SETTING_KEY = none ∧
     text_selection_setting (dictPop r TEXT_SELECTION_SETTING_KEY)
       settings.ENABLE =
      .ok (dictPop (dictPop r TEXT_SELECTION_SETTING_KEY)
             TEXT_SELECTION_SETTING_KEY,
           [Event.evaluateJavascript TEXT_SELECTION_ENABLE]) ∧
     dictLookup (dictPop (dictPop r TEXT_SELECTION_SETTING_KEY)
       TEXT_SELECTION_SETTING_KEY) TEXT_SELECTION_SETTING_KEY = none) := by
  refine ⟨⟨?_, dictLookup_dictPop r _, ?_, dictLookup_dictPop _ _⟩,
    ⟨?_, dictLookup_dictPop r _, ?_, dictLookup_dictPop _ _⟩⟩ <;>
    simp [right_click_setting, text_selection_setting]

/-- C9.  Every registry state reachable from the empty registry of
construction through arbitrary setting calls stores only the two
setting keys, each mapped to one of that setting's overriding scripts,
and never stores an enabling script. -/
theorem registry_invariant (ops : List SettingOp) :
    ∀ p ∈ runOps [] ops,
      (p.1 = RIGHT_CLICK_SETTING_KEY ∨ p.1 = TEXT_SELECTION_SETTING_KEY) ∧
      (p.1 = RIGHT_CLICK_SETTING_KEY →
        p.2 = RIGHT_CLICK_DISABLE ∨ p.2 = RIGHT_CLICK_INPUTS_ONLY) ∧
      (p.1 = TEXT_SELECTION_SETTING_KEY → p.2 = TEXT_SELECTION_DISABLE) ∧
      p.2 ≠ RIGHT_CLICK_ENABLE ∧ p.2 ≠ TEXT_SELECTION_ENABLE := by
  intro p hp
  have hwf : registryWF (runOps [] ops) :=
    registryWF_runOps ops [] (by intro q hq; cases hq)
  rcases hwf p hp with ⟨hk, hval⟩ | ⟨hk, hval⟩
  · refine ⟨Or.inl hk, fun _ => hval, fun hts => ?_, ?_, ?_⟩
    · exact absurd (hk.symm.trans hts) (by decide)
    · rcases hval with h | h <;> rw [h] <;> decide
    · rcases hval with h | h <;> rw [h] <;> decide
  · refine ⟨Or.inr hk, fun hrc => ?_, fun _ => hval, ?_, ?_⟩
    · exact absurd (hk.symm.trans hrc) (by decide)
    · rw [hval]; decide
    · rw [hval]; decide

theorem registry_invariant_witness :
    ((RIGHT_CLICK_SETTING_KEY, RIGHT_CLICK_DISABLE).1 =
        RIGHT_CLICK_SETTING_KEY ∨
     (RIGHT_CLICK_SETTING_KEY, RIGHT_CLICK_DISABLE).1 =
        TEXT_SELECTION_SETTING_KEY) ∧
    ((RIGHT_CLICK_SETTING_KEY, RIGHT_CLICK_DISABLE).1 =
        RIGHT_CLICK_SETTING_KEY →
      (RIGHT_CLICK_SETTING_KEY, RIGHT_CLICK_DISABLE).2 =
          RIGHT_CLICK_DISABLE ∨
      (RIGHT_CLICK_SETTING_KEY, RIGHT_CLICK_DISABLE).2 =
          RIGHT_CLICK_INPUTS_ONLY) ∧
    ((RIGHT_CLICK_SETTING_KEY, RIGHT_CLICK_DISABLE).1 =
        TEXT_SELECTION_SETTING_KEY →
      (RIGHT_CLICK_SETTING_KEY, RIGHT_CLICK_DISABLE).2 =
          TEXT_SELECTION_DISABLE) ∧
    (RIGHT_CLICK_SETTING_KEY, RIGHT_CLICK_DISABLE).2 ≠ RIGHT_CLICK_ENABLE ∧
    (RIGHT_CLICK_SETTING_KEY, RIGHT_CLICK_DISABLE).2 ≠
      TEXT_SELECTION_ENABLE :=
  registry_invariant [SettingOp.rightClick settings.DISABLE]
    (RIGHT_CLICK_SETTING_KEY, RIGHT_CLICK_DISABLE) (by decide)

/-- C6.  Construction with an already-existing application instance
fails with the `RuntimeError` (spec: `AlreadyRunning`) unless
`allow_overwrite` is passed, in which case the existing instance is
reused; with no existing instance a fresh one is created. -/
theorem singleton_application (existing : Option Nat) (args : InitArgs) :
    (∀ a, existing = some a → args.allow_overwrite = false →
      BaseGUI_init existing args =
        .error (PyError.runtimeError alreadyRunningError)) ∧
    (∀ a, existing = some a → args.allow_overwrite = true →
      ∃ st ev, BaseGUI_init existing args = .ok (AppRef.reused a, st, ev)) ∧
    (existing = none →
      ∃ st ev, BaseGUI_init existing args = .ok (AppRef.fresh, st, ev)) := by
  refine ⟨?_, ?_, ?_⟩
  · intro a ha hov
    subst ha
    simp [BaseGUI_init, acquire_app, hov, Except.map]
  · intro a ha hov
    subst ha
    unfold BaseGUI_init
    rw [hov]
    exact ⟨_, _, rfl⟩
  · intro ha
    subst ha
    unfold BaseGUI_init
    exact ⟨_, _, rfl⟩

theorem singleton_application_witness :
    BaseGUI_init (some 7) defaultArgs =
      .error (PyError.runtimeError alreadyRunningError) ∧
    (∃ st ev, BaseGUI_init (some 7)
        { defaultArgs with allow_overwrite := true } =
      .ok (AppRef.reused 7, st, ev)) ∧
    (∃ st ev, BaseGUI_init none defaultArgs =
      .ok (AppRef.fresh, st, ev)) :=
  ⟨(singleton_application (some 7) defaultArgs).1 7 rfl rfl,
   (singleton_application (some 7)
     { defaultArgs with allow_overwrite := true }).2.1 7 rfl rfl,
   (singleton_application none defaultArgs).2.2 rfl⟩

/-- C7.  The `auto_resize` operation applies the cached width/height
and x/y to the widget (a resize followed by a move) exactly when the
window is not maximized, mutates nothing when it is maximized, and in
either case never writes widget geometry back into the cache (the
cached integers and the registry are untouched). -/
theorem auto_resize_applies_cache_iff_not_maximized (st : GUIState) :
    (st.widget.isMaximized = false →
      auto_resize st =
        ({ st with widget := { st.widget with
             geomW := st._width, geomH := st._height,
             geomX := st._x, geomY := st._y } },
         [Event.resize st._width st._height, Event.move st._x st._y])) ∧
    (st.widget.isMaximized = true → auto_resize st = (st, [])) ∧
    (auto_resize st).1._width = st._width ∧
    (auto_resize st).1._height = st._height ∧
    (auto_resize st).1._x = st._x ∧
    (auto_resize st).1._y = st._y ∧
    (auto_resize st).1.registry = st.registry := by
  refine ⟨fun h => ?_, fun h => ?_, ?_, ?_, ?_, ?_, ?_⟩
  · simp [auto_resize, maximized_get, h, window_resize, window_move]
  · simp [auto_resize, maximized_get, h]
  all_goals
    cases h : st.widget.isMaximized <;>
      simp [auto_resize, maximized_get, h, window_resize, window_move]

/-- Concrete non-maximized state used as a witness input. -/
def exampleNormalState : GUIState :=
  { widget := freshWidget, registry := [],
    _width := 800, _height := 600, _x := 10, _y := 10 }

/-- Concrete maximized state used as a witness input. -/
def exampleMaximizedState : GUIState :=
  { widget := { freshWidget with isMaximized := true }, registry := [],
    _width := 800, _height := 600, _x := 10, _y := 10 }

theorem auto_resize_applies_cache_witness :
    auto_resize exampleNormalState =
      ({ exampleNormalState with widget := { exampleNormalState.widget with
           geomW := 800, geomH := 600, geomX := 10, geomY := 10 } },
       [Event.resize 800 600, Event.move 10 10]) ∧
    auto_resize exampleMaximizedState = (exampleMaximizedState, []) :=
  ⟨(auto_resize_applies_cache_iff_not_maximized exampleNormalState).1 rfl,
   (auto_resize_applies_cache_iff_not_maximized exampleMaximizedState).2.1 rfl⟩

/-- C4 evidence.  Setting `maximized` to `False` runs `showNormal()`
but never the `auto_resize()` call written after `and` in the setter
lambda at base_gui.py line 116: `showNormal()` returns `None`, which is
falsy, so Python's `and` short-circuits.  At this concrete maximized
state with cache (800, 600, 10, 10) the setter emits only `showNormal`
and the cached geometry is not reapplied. -/
theorem maximized_false_skips_auto_resize :
    (maximized_set
      { widget := { freshWidget with
          isMaximized := true, geomW := 1920, geomH := 1080 },
        registry := [], _width := 800, _height := 600,
        _x := 10, _y := 10 } false =
      ({ widget := { freshWidget with
           isMaximized := false, geomW := 1920, geomH := 1080 },
         registry := [], _width := 800, _height := 600,
         _x := 10, _y := 10 },
       [Event.showNormal])) ∧
    (∀ st : GUIState, maximized_set st false =
      ({ st with widget := { st.widget with isMaximized := false } },
       [Event.showNormal])) := by
  exact ⟨by decide, fun st => rfl⟩

/-- C8.  On each `titleChanged` notification the connected
`adjustTitle` slot sets the window chrome title to the widget's current
title value. -/
theorem title_changed_mirrors_title (st : GUIState) (newTitle : String) :
    titleChanged_dispatch st newTitle =
      ({ st with widget := { st.widget with
           title := newTitle, windowTitle := newTitle } },
       [Event.setWindowTitle newTitle]) ∧
    (adjustTitle st).1.widget.windowTitle = st.widget.title ∧
    (adjustTitle st).2 = [Event.setWindowTitle st.widget.title] :=
  ⟨rfl, rfl, rfl⟩

theorem windowTitle_maximized_set (st : GUIState) (v : Bool) :
    (maximized_set st v).1.widget.windowTitle = st.widget.windowTitle := by
  cases v <;> rfl

theorem windowTitle_auto_resize (st : GUIState) :
    (auto_resize st).1.widget.windowTitle = st.widget.windowTitle := by
  by_cases h : st.widget.isMaximized = true <;>
    simp [auto_resize, maximized_get, h, window_resize, window_move]

/-- C10.  Immediately after `Browser` construction the window chrome
title is the placeholder "Loading...", and application construction
then overwrites it with the caller-supplied title, which is what the
fully constructed state carries. -/
theorem loading_placeholder_then_caller_title (args : InitArgs) :
    Browser_init.1.windowTitle = "Loading..." ∧
    Except.map (fun res => res.2.1.widget.windowTitle)
      (BaseGUI_init none args) = .ok args.title := by
  refine ⟨rfl, ?_⟩
  simp only [BaseGUI_init, acquire_app, Except.map]
  rw [windowTitle_auto_resize, windowTitle_maximized_set]
  rfl
